import Mathlib

/-!
Shallow embedding of `cerebuswrapper` (files `cbsdkConnection.py` and
`_shared.py`) in Lean 4, together with theorems settling the claims about it.

Python runtime values are modelled by the inductive `Val` (dictionaries are
association lists with string keys, the only key type the repository uses).
The opaque vendor binding `cbpy` is modelled by an oracle structure `CbPy`
whose fields give the results of each binding call; every wrapper method is a
pure function from the oracle and the handle state to a `StepRes`, which
carries the returned value (or the Python exception raised), the state of the
handle after the call, the ordered trace of binding calls issued, and the log
messages emitted.
-/

mutual
/-- A Python runtime value, as used by the repository: `None`, booleans,
integers, strings, lists, tuples and string-keyed dictionaries. Dictionaries
are association lists (`Fields`); the repository only ever uses string keys. -/
inductive Val where
  | vNone : Val
  | vBool (b : Bool) : Val
  | vInt (n : Int) : Val
  | vStr (s : String) : Val
  | vList (xs : ValList) : Val
  | vTuple (xs : ValList) : Val
  | vDict (fs : Fields) : Val
inductive ValList where
  | nil : ValList
  | cons (v : Val) (tl : ValList) : ValList
inductive Fields where
  | nil : Fields
  | cons (k : String) (v : Val) (tl : Fields) : Fields
end

deriving instance DecidableEq for Val
deriving instance DecidableEq for ValList
deriving instance DecidableEq for Fields
deriving instance Repr for Val
deriving instance Repr for ValList
deriving instance Repr for Fields

/-- Python exceptions that code in this repository can raise or catch. -/
inductive PyErr where
  | typeError : PyErr
  | valueError : PyErr
  | keyError (k : String) : PyErr
  | indexError : PyErr
  | runtimeError (msg : String) : PyErr
deriving DecidableEq, Repr

/-- First value stored under key `key` (Python dict lookup; dictionaries built
by this development have unique keys, so first match is the stored value). -/
def Fields.find? : Fields → String → Option Val
  | .nil, _ => none
  | .cons k v tl, key => if k = key then some v else tl.find? key

/-- Python `key in d` for a dict `d`. -/
def Fields.hasKey (fs : Fields) (key : String) : Bool :=
  (fs.find? key).isSome

/-- Python `d[key] = v`: replace the value at the first occurrence of `key`,
or append the binding if `key` is absent. -/
def Fields.setKey : Fields → String → Val → Fields
  | .nil, key, v => .cons key v .nil
  | .cons k w tl, key, v =>
      if k = key then .cons k v tl else .cons k w (tl.setKey key v)

/-- Python `{**a, **b}` (equivalently `dict(a)` then `update(b)`): every key
of `b` overrides or extends `a`, processed in the order of `b`. -/
def Fields.merge : Fields → Fields → Fields
  | a, .nil => a
  | a, .cons k v tl => Fields.merge (a.setKey k v) tl

/-- The list of keys of a dict, in storage order. -/
def Fields.keys : Fields → List String
  | .nil => []
  | .cons k _ tl => k :: tl.keys

/-- A well-formed Python dict stores each key at most once. -/
def Fields.NodupKeys (fs : Fields) : Prop := fs.keys.Nodup

instance : DecidablePred Fields.NodupKeys := fun fs =>
  inferInstanceAs (Decidable fs.keys.Nodup)

/-- Python truthiness (`bool(v)`) for the value shapes the repository uses:
`None` and empty containers are falsy, numbers are truthy when nonzero,
strings when nonempty. -/
def Val.truthy : Val → Bool
  | .vNone => false
  | .vBool b => b
  | .vInt n => decide (n ≠ 0)
  | .vStr s => decide (s ≠ "")
  | .vList .nil => false
  | .vList (.cons _ _) => true
  | .vTuple .nil => false
  | .vTuple (.cons _ _) => true
  | .vDict .nil => false
  | .vDict (.cons _ _ _) => true

/-- Length of a `ValList`. -/
def ValList.length : ValList → Nat
  | .nil => 0
  | .cons _ tl => tl.length + 1

/-- Convert a `ValList` to a Lean list, for stating trace equalities. -/
def ValList.toList : ValList → List Val
  | .nil => []
  | .cons v tl => v :: tl.toList

/-- Python `dict(seq)` over a sequence: each element must be a sequence of
length two whose first component is a (string) key; later pairs override
earlier ones. `TypeError` if an element is not a sequence, `ValueError` if it
is a sequence of the wrong length. -/
def dictOfSeq : ValList → Fields → Except PyErr Fields
  | .nil, acc => .ok acc
  | .cons e tl, acc =>
      match e with
      | .vList (.cons (.vStr k) (.cons v .nil)) => dictOfSeq tl (acc.setKey k v)
      | .vTuple (.cons (.vStr k) (.cons v .nil)) => dictOfSeq tl (acc.setKey k v)
      | .vList _ => .error .valueError
      | .vTuple _ => .error .valueError
      | .vStr s => if s.length = 2 then .error .typeError else .error .valueError
      | _ => .error .typeError

/-- Python `dict(v)`: dictionaries pass through, the empty string yields the
empty dict, other strings fail with `ValueError` (their character elements are
length-one sequences), sequences convert elementwise, and non-iterables fail
with `TypeError`. -/
def dictOf : Val → Except PyErr Fields
  | .vDict fs => .ok fs
  | .vList xs => dictOfSeq xs .nil
  | .vTuple xs => dictOfSeq xs .nil
  | .vStr s => if s = "" then .ok .nil else .error .valueError
  | .vNone => .error .typeError
  | .vBool _ => .error .typeError
  | .vInt _ => .error .typeError

/-- Does the Lean list contain the value? (helper for Python `in` on lists). -/
def ValList.containsVal : ValList → Val → Bool
  | .nil, _ => false
  | .cons v tl, w => if v = w then true else tl.containsVal w

/-- Python `key in v` for a string `key`: key lookup on dicts, substring test
on strings, elementwise equality on lists and tuples, `TypeError` otherwise. -/
def pyContains (v : Val) (key : String) : Except PyErr Bool :=
  match v with
  | .vDict fs => .ok (fs.hasKey key)
  | .vStr s => .ok ((s.splitOn key).length != 1)
  | .vList xs => .ok (xs.containsVal (.vStr key))
  | .vTuple xs => .ok (xs.containsVal (.vStr key))
  | _ => .error .typeError

/-- Python `v[key]` for a string `key`: dict lookup (raising `KeyError` when
absent); every other shape raises `TypeError` (list and tuple indices must be
integers, strings cannot be indexed by strings). -/
def pyGetItem (v : Val) (key : String) : Except PyErr Val :=
  match v with
  | .vDict fs =>
      match fs.find? key with
      | some w => .ok w
      | none => .error (.keyError key)
  | _ => .error .typeError

/-- Python `v[i]` for a nonnegative integer index: lists and tuples index
positionally (raising `IndexError` out of range); other shapes raise. -/
def pyIndex (v : Val) (i : Nat) : Except PyErr Val :=
  match v with
  | .vList xs => go xs i
  | .vTuple xs => go xs i
  | .vDict _ => .error (.keyError "")
  | _ => .error .typeError
where
  go : ValList → Nat → Except PyErr Val
    | .nil, _ => .error .indexError
    | .cons v _, 0 => .ok v
    | .cons _ tl, n + 1 => go tl n

/-- Python `{**v, ...}` unpacking: `v` must be a mapping, else `TypeError`. -/
def pyUnpackMap (v : Val) : Except PyErr Fields :=
  match v with
  | .vDict fs => .ok fs
  | _ => .error .typeError

/-- The text of `s` before its first comma (the head of
`s.split(",")` in Python). -/
def strBeforeComma (s : String) : String :=
  String.mk (s.data.takeWhile (fun c => c != ','))

/-- Numeric value of a list of decimal digit characters. -/
def digitsToNat (cs : List Char) : Nat :=
  cs.foldl (fun acc c => acc * 10 + (c.toNat - 48)) 0

/-- Python `int(s)` on a string: optional surrounding whitespace and an
optional single leading sign followed by one or more digits; anything else
raises `ValueError`. -/
def pyIntOfString (s : String) : Except PyErr Int :=
  let cs := s.data.dropWhile (fun c => c.isWhitespace)
  let cs := (cs.reverse.dropWhile (fun c => c.isWhitespace)).reverse
  match cs with
  | [] => .error .valueError
  | c :: rest =>
      let signDigits : Bool × List Char :=
        if c = '-' then (true, rest)
        else if c = '+' then (false, rest)
        else (false, c :: rest)
      if signDigits.2 ≠ [] ∧ signDigits.2.all (fun d => d.isDigit) then
        let n := digitsToNat signDigits.2
        .ok (if signDigits.1 then -(Int.ofNat n) else Int.ofNat n)
      else .error .valueError

/-- One log message emitted through `loguru`; each constructor corresponds to
one `logger.info`/`logger.error` call site in `cbsdkConnection.py`, carrying
the data interpolated into the original format string. -/
inductive LogEv where
  | infoOpenReturned (result : Int) (connect_info : Val) : LogEv
  | errorException (msg : String) : LogEv
  | errorConfigNotDict : LogEv
  | errorTrialEvent (result : Int) : LogEv
  | errorTrialContinuous (result : Int) : LogEv
  | errorTrialComment (result : Int) : LogEv
  | errorGroupConfig (result : Int) : LogEv
  | errorChannelInfo (result : Int) : LogEv
deriving DecidableEq, Repr

/-- One invocation of the vendor binding `cbpy` (or of `time.sleep`), with the
arguments the wrapper passed. `spikeCacheNew` records construction of a
`cbpy.SpikeCache`, identified by the fresh cursor id the model allocates;
`getNewWaveforms` records a `get_new_waveforms()` call on that cursor. -/
inductive BCall where
  | openCall (instance_ : Int) (parameter : Fields) : BCall
  | closeCall : BCall
  | trialConfig (instance_ : Val) (reset : Val) (buffer_parameter : Val)
      (range_parameter : Val) (noevent : Int) (nocontinuous : Int)
      (nocomment : Int) : BCall
  | trialEvent (instance_ : Val) : BCall
  | trialContinuous (instance_ : Val) : BCall
  | trialComment (instance_ : Val) : BCall
  | setComment (comment : Val) (rgba_tuple : Val) (instance_ : Val) : BCall
  | getSampleGroup (group_ix : Val) (instance_ : Val) : BCall
  | getChannelConfig (chan_id : Val) (instance_ : Val) : BCall
  | setChannelConfig (chan_id : Val) (chaninfo : Val) : BCall
  | timeCall (instance_ : Int) : BCall
  | analogOut (out_ch : Int) (chan_ix : Val) (instance_ : Val) : BCall
  | spikeCacheNew (channel : Val) (instance_ : Val) (cursor : Nat) : BCall
  | getNewWaveforms (cursor : Nat) : BCall
  | getSysConfig (instance_ : Val) : BCall
  | fileConfig (kwargs : Fields) : BCall
  | sleepCall (ms : Nat) : BCall
deriving DecidableEq, Repr

/-- Oracle for the opaque vendor binding `cbpy`: each field fixes the value a
binding call returns (the binding's internal behaviour is outside this
repository). `openRes` is either the `(result, connect_info)` pair or the
message of the `RuntimeError` that `cbpy.open` raises. Calls whose results the
wrapper discards (`trial_config`, `close`, `set_comment`, `analog_out`,
`set_channel_config`) need no oracle field; they are only traced. -/
structure CbPy where
  defaultConParams : Fields
  openRes : Except String (Int × Val)
  trial_event : Val → Int × Val
  trial_continuous : Val → Int × Val × Int
  trial_comment : Val → Int × Val
  get_sample_group : Val → Val → Int × Val
  get_channel_config : Val → Val → Int × Val
  time_ : Int → Int × Int
  get_sys_config : Val → Val
  file_config : Fields → Val
  get_new_waveforms : Nat → Val

/-- State of a `CbSdkConnection` object: the instance attributes set in
`__init__`, plus `next_cursor`, the model's supply of fresh identities for
`cbpy.SpikeCache` objects (`spike_cache` maps a channel key to the cursor id
allocated for it). -/
structure Conn where
  instance_ : Int
  con_params : Fields
  is_connected : Bool
  is_simulating : Bool
  sig_gens : Fields
  _cbsdk_config : Fields
  spike_cache : List (Val × Nat)
  next_cursor : Nat
deriving DecidableEq, Repr

/-- Result of running one wrapper method: the returned value or the Python
exception that escaped, the handle state after the call (mutations performed
before a raise are preserved, as in Python), the trace of binding calls, and
the log messages, both in order of occurrence. -/
structure StepRes (α : Type) where
  ret : Except PyErr α
  st : Conn
  tr : List BCall
  logs : List LogEv
deriving Repr

/-- Lookup in the spike cache (Python dict keyed by the channel argument). -/
def scFind : List (Val × Nat) → Val → Option Nat
  | [], _ => none
  | (k, c) :: tl, key => if k = key then some c else scFind tl key

namespace CbSdkConnection

/-- Lookup `self.cbsdk_config[key]` (Python raises `KeyError` if absent). -/
def cfgGet (st : Conn) (key : String) : Except PyErr Val :=
  match st._cbsdk_config.find? key with
  | some v => .ok v
  | none => .error (.keyError key)

/-- The initial `_cbsdk_config` dictionary built in `__init__`. -/
def initConfig (instance_ : Int) : Fields :=
  .cons "instance" (.vInt instance_)
    (.cons "buffer_parameter" (.vDict (.cons "absolute" (.vBool true) .nil))
      (.cons "range_parameter" (.vDict .nil)
        (.cons "get_events" (.vBool true)
          (.cons "get_continuous" (.vBool true) .nil))))

/-- `CbSdkConnection.__init__(instance, con_params, simulate_ok)`:
`con_params` defaults to `{}` and is merged over `cbpy.defaultConParams()`
(caller-supplied keys win); the handle starts disconnected with the initial
configuration dictionary and an empty spike cache. -/
def init (env : CbPy) (instance_ : Int := 0) (con_params : Option Fields := none)
    (simulate_ok : Bool := false) : Conn :=
  let cp := con_params.getD .nil
  { instance_ := instance_
    con_params := env.defaultConParams.merge cp
    is_connected := false
    is_simulating := simulate_ok
    sig_gens := .nil
    _cbsdk_config := initConfig instance_
    spike_cache := []
    next_cursor := 0 }

/-- The parameter names of `_do_cbsdk_config`; calling it as
`_do_cbsdk_config(**self._cbsdk_config)` raises `TypeError` if the stored
configuration contains any other key. -/
def doConfigParamNames : List String :=
  ["instance", "reset", "buffer_parameter", "range_parameter",
   "get_events", "get_continuous", "get_comments"]

/-- `_do_cbsdk_config(**kwargs)`: unpacks the keyword arguments (raising
`TypeError` on an unexpected keyword), substitutes each parameter default for
a missing key, replaces a `None` buffer or range parameter by `{}`, and, when
connected, issues `cbpy.trial_config` with the suppress flags
`noevent = int(not get_events)` etc. It never changes the handle state. -/
def _do_cbsdk_config (st : Conn) (kwargs : Fields) :
    Except PyErr Unit × List BCall :=
  if kwargs.keys.all (fun k => decide (k ∈ doConfigParamNames)) then
    let instance_ := (kwargs.find? "instance").getD (.vInt 0)
    let reset := (kwargs.find? "reset").getD (.vBool true)
    let buffer_parameter := (kwargs.find? "buffer_parameter").getD .vNone
    let range_parameter := (kwargs.find? "range_parameter").getD .vNone
    let get_events := (kwargs.find? "get_events").getD (.vBool false)
    let get_continuous := (kwargs.find? "get_continuous").getD (.vBool false)
    let get_comments := (kwargs.find? "get_comments").getD (.vBool false)
    let buffer_parameter :=
      match buffer_parameter with | .vNone => .vDict .nil | v => v
    let range_parameter :=
      match range_parameter with | .vNone => .vDict .nil | v => v
    if st.is_connected then
      (.ok (), [.trialConfig instance_ reset buffer_parameter range_parameter
        (if get_events.truthy then 0 else 1)
        (if get_continuous.truthy then 0 else 1)
        (if get_comments.truthy then 0 else 1)])
    else (.ok (), [])
  else (.error .typeError, [])

/-- The value-preparation part of the `cbsdk_config` property setter (the
lines before the assignment to `self._cbsdk_config`). Non-dict values are
passed to `dict(...)`; a `TypeError` from that conversion is caught and
logged but the method then continues with the unconverted value (there is no
early return in the source), so a later line raises on such input. For dict
input the nested `buffer_parameter` and `range_parameter` dicts are merged
over the stored ones. Returns the final local `indict` as a mapping (ready
for `{**self._cbsdk_config, **indict}`), or the exception these lines raise,
together with the log emitted by the caught conversion error; it reads the
stored configuration and changes nothing. -/
def cbsdk_config_prepare (st : Conn) (value : Val) :
    Except PyErr Fields × List LogEv :=
  let conv : Except PyErr Val × List LogEv :=
    match value with
    | .vDict _ => (.ok value, [])
    | _ =>
        match dictOf value with
        | .ok fs => (.ok (.vDict fs), [])
        | .error .typeError => (.ok value, [.errorConfigNotDict])
        | .error e => (.error e, [])
  match conv with
  | (.error e, logs) => (.error e, logs)
  | (.ok indict, logs) =>
    match pyContains indict "buffer_parameter" with
    | .error e => (.error e, logs)
    | .ok hasB =>
      let stepB : Except PyErr Val :=
        if hasB then
          match pyGetItem (.vDict st._cbsdk_config) "buffer_parameter" with
          | .error e => .error e
          | .ok oldB =>
            match pyUnpackMap oldB with
            | .error e => .error e
            | .ok oldBf =>
              match pyGetItem indict "buffer_parameter" with
              | .error e => .error e
              | .ok newB =>
                match pyUnpackMap newB with
                | .error e => .error e
                | .ok newBf =>
                  match indict with
                  | .vDict fs =>
                      .ok (.vDict (fs.setKey "buffer_parameter"
                        (.vDict (oldBf.merge newBf))))
                  | _ => .error .typeError
        else .ok indict
      match stepB with
      | .error e => (.error e, logs)
      | .ok indict =>
        match pyContains indict "range_parameter" with
        | .error e => (.error e, logs)
        | .ok hasR =>
          let stepR : Except PyErr Val :=
            if hasR then
              match pyGetItem (.vDict st._cbsdk_config) "range_parameter" with
              | .error e => .error e
              | .ok oldR =>
                match pyUnpackMap oldR with
                | .error e => .error e
                | .ok oldRf =>
                  match pyGetItem indict "range_parameter" with
                  | .error e => .error e
                  | .ok newR =>
                    match pyUnpackMap newR with
                    | .error e => .error e
                    | .ok newRf =>
                      match indict with
                      | .vDict fs =>
                          .ok (.vDict (fs.setKey "range_parameter"
                            (.vDict (oldRf.merge newRf))))
                      | _ => .error .typeError
            else .ok indict
          match stepR with
          | .error e => (.error e, logs)
          | .ok indict =>
            match pyUnpackMap indict with
            | .error e => (.error e, logs)
            | .ok indictF => (.ok indictF, logs)

/-- The `cbsdk_config` property setter: prepares the merged update (see
`cbsdk_config_prepare`), stores `{**self._cbsdk_config, **indict}` and then
applies it through `_do_cbsdk_config(**self._cbsdk_config)` (which pushes to
the device only when connected; the store still happens when that call
raises, matching the source order of lines). -/
def cbsdk_config_set (st : Conn) (value : Val) : StepRes Unit :=
  match cbsdk_config_prepare st value with
  | (.error e, logs) => ⟨.error e, st, [], logs⟩
  | (.ok indictF, logs) =>
      let newCfg := st._cbsdk_config.merge indictF
      let st1 := { st with _cbsdk_config := newCfg }
      let (r, tr) := _do_cbsdk_config st1 newCfg
      ⟨r, st1, tr, logs⟩

/-- `connect()`: calls `cbpy.open` with the handle's instance and merged
parameters. On a normal return `(result, connect_info)` it sets
`is_connected` to `result == 0 or result == 1`, logs the result, and assigns
`self.cbsdk_config = {'buffer_parameter': {'absolute': True}}` through the
property setter; it returns `result`. When `cbpy.open` raises `RuntimeError`,
`result` is `int(str(e).split(",")[0])`, modelled as parsing the text before
the first comma (the `ValueError` of an unparsable message propagates before
`is_connected` is assigned),
`is_connected` becomes `False`, and the exception is logged. -/
def connect (env : CbPy) (st : Conn) : StepRes Int :=
  match env.openRes with
  | .ok (result, connect_info) =>
      let st1 := { st with is_connected := result == 0 || result == 1 }
      let r := cbsdk_config_set st1
        (.vDict (.cons "buffer_parameter"
          (.vDict (.cons "absolute" (.vBool true) .nil)) .nil))
      ⟨(match r.ret with | .ok _ => .ok result | .error e => .error e),
        r.st, .openCall st.instance_ st.con_params :: r.tr,
        .infoOpenReturned result connect_info :: r.logs⟩
  | .error msg =>
      match pyIntOfString (strBeforeComma msg) with
      | .error e => ⟨.error e, st, [.openCall st.instance_ st.con_params], []⟩
      | .ok result =>
          ⟨.ok result, { st with is_connected := false },
            [.openCall st.instance_ st.con_params], [.errorException msg]⟩

/-- `disconnect()`: closes the binding unconditionally and clears the
connected flag. -/
def disconnect (st : Conn) : StepRes Val :=
  ⟨.ok .vNone, { st with is_connected := false }, [.closeCall], []⟩

/-- `get_event_data()`: checks `self.cbsdk_config['get_events']` (before the
connection check, as in the source), then when connected reads
`cbpy.trial_event`; returns the data on result `0`, otherwise logs and falls
through to `return None`. -/
def get_event_data (env : CbPy) (st : Conn) : StepRes Val :=
  match cfgGet st "get_events" with
  | .error e => ⟨.error e, st, [], []⟩
  | .ok ge =>
    if ge.truthy then
      if st.is_connected then
        match cfgGet st "instance" with
        | .error e => ⟨.error e, st, [], []⟩
        | .ok inst =>
          let (result, data) := env.trial_event inst
          if result = 0 then ⟨.ok data, st, [.trialEvent inst], []⟩
          else ⟨.ok .vNone, st, [.trialEvent inst], [.errorTrialEvent result]⟩
      else ⟨.ok .vNone, st, [], []⟩
    else ⟨.ok .vNone, st, [], []⟩

/-- `get_continuous_data(return_timestamp=False)`: guarded by
`self.is_connected and self.cbsdk_config['get_continuous']` (short-circuit:
disconnected handles never touch the configuration); reads
`cbpy.trial_continuous` and returns the data, or `(data, t_0)` when the
timestamp is requested; logs and returns `None` on a nonzero result. -/
def get_continuous_data (env : CbPy) (st : Conn)
    (return_timestamp : Bool := false) : StepRes Val :=
  if st.is_connected then
    match cfgGet st "get_continuous" with
    | .error e => ⟨.error e, st, [], []⟩
    | .ok gc =>
      if gc.truthy then
        match cfgGet st "instance" with
        | .error e => ⟨.error e, st, [], []⟩
        | .ok inst =>
          let (result, data, t_0) := env.trial_continuous inst
          if result = 0 then
            if return_timestamp then
              ⟨.ok (.vTuple (.cons data (.cons (.vInt t_0) .nil))), st,
                [.trialContinuous inst], []⟩
            else ⟨.ok data, st, [.trialContinuous inst], []⟩
          else ⟨.ok .vNone, st, [.trialContinuous inst],
            [.errorTrialContinuous result]⟩
      else ⟨.ok .vNone, st, [], []⟩
  else ⟨.ok .vNone, st, [], []⟩

/-- `get_comments()`: guarded by
`self.is_connected and self.cbsdk_config['get_comments']`; reads
`cbpy.trial_comment` with a zero-millisecond wait; logs and returns `None` on
a nonzero result. -/
def get_comments (env : CbPy) (st : Conn) : StepRes Val :=
  if st.is_connected then
    match cfgGet st "get_comments" with
    | .error e => ⟨.error e, st, [], []⟩
    | .ok gc =>
      if gc.truthy then
        match cfgGet st "instance" with
        | .error e => ⟨.error e, st, [], []⟩
        | .ok inst =>
          let (result, comments) := env.trial_comment inst
          if result = 0 then ⟨.ok comments, st, [.trialComment inst], []⟩
          else ⟨.ok .vNone, st, [.trialComment inst],
            [.errorTrialComment result]⟩
      else ⟨.ok .vNone, st, [], []⟩
  else ⟨.ok .vNone, st, [], []⟩

/-- The loop body of `set_comments`: one `cbpy.set_comment` per element, each
looking up `self.cbsdk_config['instance']` when building its arguments. -/
def set_comments_loop (st : Conn) (rgba_tuple : Val) :
    ValList → StepRes Val
  | .nil => ⟨.ok .vNone, st, [], []⟩
  | .cons c tl =>
      match cfgGet st "instance" with
      | .error e => ⟨.error e, st, [], []⟩
      | .ok inst =>
          let rest := set_comments_loop st rgba_tuple tl
          ⟨rest.ret, rest.st, .setComment c rgba_tuple inst :: rest.tr,
            rest.logs⟩

/-- `set_comments(comment_list, rgba_tuple=(0, 0, 0, 64))`: a value that is
neither a list nor a tuple is wrapped as `[comment_list]`; each element is
posted through `cbpy.set_comment` with the colour tuple and the configured
instance. There is no connection-state guard. -/
def set_comments (st : Conn) (comment_list : Val)
    (rgba_tuple : Val := .vTuple (.cons (.vInt 0) (.cons (.vInt 0)
      (.cons (.vInt 0) (.cons (.vInt 64) .nil))))) : StepRes Val :=
  let cl : ValList :=
    match comment_list with
    | .vList xs => xs
    | .vTuple xs => xs
    | v => .cons v .nil
  set_comments_loop st rgba_tuple cl

/-- `get_group_config(group_ix)`: when connected, queries
`cbpy.get_sample_group`; returns the info on result `0`, otherwise logs and
returns `None`. -/
def get_group_config (env : CbPy) (st : Conn) (group_ix : Val) : StepRes Val :=
  if st.is_connected then
    match cfgGet st "instance" with
    | .error e => ⟨.error e, st, [], []⟩
    | .ok inst =>
      let (result, group_info) := env.get_sample_group group_ix inst
      if result = 0 then ⟨.ok group_info, st, [.getSampleGroup group_ix inst], []⟩
      else ⟨.ok .vNone, st, [.getSampleGroup group_ix inst],
        [.errorGroupConfig result]⟩
  else ⟨.ok .vNone, st, [], []⟩

/-- `get_channel_info(chan_id)`: when connected, queries
`cbpy.get_channel_config`; returns the info on result `0`, otherwise logs and
returns `None`. -/
def get_channel_info (env : CbPy) (st : Conn) (chan_id : Val) : StepRes Val :=
  if st.is_connected then
    match cfgGet st "instance" with
    | .error e => ⟨.error e, st, [], []⟩
    | .ok inst =>
      let (result, chan_info) := env.get_channel_config chan_id inst
      if result = 0 then ⟨.ok chan_info, st, [.getChannelConfig chan_id inst], []⟩
      else ⟨.ok .vNone, st, [.getChannelConfig chan_id inst],
        [.errorChannelInfo result]⟩
  else ⟨.ok .vNone, st, [], []⟩

/-- `set_channel_info(chan_id, new_info)`: when connected, forwards to
`cbpy.set_channel_config`; the result is bound but unused. -/
def set_channel_info (st : Conn) (chan_id : Val) (new_info : Val) :
    StepRes Val :=
  if st.is_connected then
    ⟨.ok .vNone, st, [.setChannelConfig chan_id new_info], []⟩
  else ⟨.ok .vNone, st, [], []⟩

/-- `time()`: when connected, returns the second component of
`cbpy.time(instance=self.instance)` (note: the attribute, not the configured
instance); otherwise returns `None`. -/
def time (env : CbPy) (st : Conn) : StepRes Val :=
  if st.is_connected then
    let (_res, t) := env.time_ st.instance_
    ⟨.ok (.vInt t), st, [.timeCall st.instance_], []⟩
  else ⟨.ok .vNone, st, [], []⟩

/-- `monitor_chan(chan_ix, aud_out_ix=0)`: when connected, routes the channel
to audio output `277 + aud_out_ix` through `cbpy.analog_out`; the result is
bound but unused. -/
def monitor_chan (st : Conn) (chan_ix : Val) (aud_out_ix : Int := 0) :
    StepRes Val :=
  if st.is_connected then
    match cfgGet st "instance" with
    | .error e => ⟨.error e, st, [], []⟩
    | .ok inst =>
        ⟨.ok .vNone, st, [.analogOut (277 + aud_out_ix) chan_ix inst], []⟩
  else ⟨.ok .vNone, st, [], []⟩

/-- `get_waveforms(chan_ix)`: when connected, constructs a
`cbpy.SpikeCache(channel=chan_ix, instance=...)` and stores it under
`chan_ix` if (and only if) the channel has no cached cursor yet, then calls
`get_new_waveforms()` on the cached cursor; when disconnected it returns
`None` without touching the cache. -/
def get_waveforms (env : CbPy) (st : Conn) (chan_ix : Val) : StepRes Val :=
  if st.is_connected then
    match scFind st.spike_cache chan_ix with
    | some cur =>
        ⟨.ok (env.get_new_waveforms cur), st, [.getNewWaveforms cur], []⟩
    | none =>
        match cfgGet st "instance" with
        | .error e => ⟨.error e, st, [], []⟩
        | .ok inst =>
            let cur := st.next_cursor
            let st1 := { st with
              spike_cache := (chan_ix, cur) :: st.spike_cache
              next_cursor := st.next_cursor + 1 }
            ⟨.ok (env.get_new_waveforms cur), st1,
              [.spikeCacheNew chan_ix inst cur, .getNewWaveforms cur], []⟩
  else ⟨.ok .vNone, st, [], []⟩

/-- `get_sys_config()`: when connected, returns
`cbpy.get_sys_config(instance=...)`; otherwise falls through to `None`. -/
def get_sys_config (env : CbPy) (st : Conn) : StepRes Val :=
  if st.is_connected then
    match cfgGet st "instance" with
    | .error e => ⟨.error e, st, [], []⟩
    | .ok inst =>
        ⟨.ok (env.get_sys_config inst), st, [.getSysConfig inst], []⟩
  else ⟨.ok .vNone, st, [], []⟩

/-- `get_connection_state()`: a pure three-way label. -/
def get_connection_state (st : Conn) : StepRes Val :=
  if st.is_connected then ⟨.ok (.vStr "Connected to NSP"), st, [], []⟩
  else if st.is_simulating then
    ⟨.ok (.vStr "Connected to NSP simulator"), st, [], []⟩
  else ⟨.ok (.vStr "Not connected"), st, [], []⟩

/-- `get_recording_state()`: when connected, calls
`cbpy.file_config(command='info')` and returns `info[1]['Recording']`; when
disconnected it returns `False` (not `None`). -/
def get_recording_state (env : CbPy) (st : Conn) : StepRes Val :=
  if st.is_connected then
    let kw : Fields := .cons "command" (.vStr "info") .nil
    let info := env.file_config kw
    match pyIndex info 1 with
    | .error e => ⟨.error e, st, [.fileConfig kw], []⟩
    | .ok d =>
        match pyGetItem d "Recording" with
        | .error e => ⟨.error e, st, [.fileConfig kw], []⟩
        | .ok r => ⟨.ok r, st, [.fileConfig kw], []⟩
  else ⟨.ok (.vBool false), st, [], []⟩

/-- `set_recording_state(on_off, file_info)`: when connected and `file_info`
has a `'filename'` key, issues `cbpy.file_config(command='open')`, sleeps
250 ms, sets `file_info['command']` in place to `'start'`/`'stop'`, calls
`cbpy.file_config(**file_info)` and returns its result; otherwise returns
`-1` with no binding call. The second component of the returned pair is the
caller's `file_info` mapping after the call (the source mutates the argument
in place rather than copying it). -/
def set_recording_state (env : CbPy) (st : Conn) (on_off : Bool)
    (file_info : Fields) : StepRes (Val × Fields) :=
  if st.is_connected && file_info.hasKey "filename" then
    let fi := file_info.setKey "command"
      (.vStr (if on_off then "start" else "stop"))
    let out := env.file_config fi
    ⟨.ok (out, fi), st,
      [.fileConfig (.cons "command" (.vStr "open") .nil), .sleepCall 250,
        .fileConfig fi], []⟩
  else ⟨.ok (.vInt (-1), file_info), st, [], []⟩

end CbSdkConnection

/-- The inner `getinstance` closure produced by the `singleton` decorator in
`_shared.py`, specialised to one decorated class: `instances` is the memo
entry for that class (absent before the first call); a call constructs
`cls(**kwargs)` only when the memo is empty and always returns the memoised
instance. -/
def getinstance {κ α : Type} (cls : κ → α) (instances : Option α)
    (kwargs : κ) : α × Option α :=
  match instances with
  | none => (cls kwargs, some (cls kwargs))
  | some i => (i, some i)

namespace CbSdkConnection

/-- One public operation of the handle, with its arguments; used to state
properties quantified over everything a caller can invoke. -/
inductive Op where
  | connectOp : Op
  | disconnectOp : Op
  | setConfigOp (value : Val) : Op
  | getEventDataOp : Op
  | getContinuousDataOp (return_timestamp : Bool) : Op
  | getCommentsOp : Op
  | setCommentsOp (comment_list : Val) (rgba_tuple : Val) : Op
  | getGroupConfigOp (group_ix : Val) : Op
  | getChannelInfoOp (chan_id : Val) : Op
  | setChannelInfoOp (chan_id : Val) (new_info : Val) : Op
  | timeOp : Op
  | monitorChanOp (chan_ix : Val) (aud_out_ix : Int) : Op
  | getWaveformsOp (chan_ix : Val) : Op
  | getSysConfigOp : Op
  | getConnectionStateOp : Op
  | getRecordingStateOp : Op
  | setRecordingStateOp (on_off : Bool) (file_info : Fields) : Op

/-- The handle state after running one operation (the state component of the
corresponding method, raised exceptions included). -/
def runOp (env : CbPy) (st : Conn) : Op → Conn
  | .connectOp => (connect env st).st
  | .disconnectOp => (disconnect st).st
  | .setConfigOp v => (cbsdk_config_set st v).st
  | .getEventDataOp => (get_event_data env st).st
  | .getContinuousDataOp rt => (get_continuous_data env st rt).st
  | .getCommentsOp => (get_comments env st).st
  | .setCommentsOp cl rgba => (set_comments st cl rgba).st
  | .getGroupConfigOp g => (get_group_config env st g).st
  | .getChannelInfoOp c => (get_channel_info env st c).st
  | .setChannelInfoOp c i => (set_channel_info st c i).st
  | .timeOp => (time env st).st
  | .monitorChanOp c a => (monitor_chan st c a).st
  | .getWaveformsOp c => (get_waveforms env st c).st
  | .getSysConfigOp => (get_sys_config env st).st
  | .getConnectionStateOp => (get_connection_state st).st
  | .getRecordingStateOp => (get_recording_state env st).st
  | .setRecordingStateOp o fi => (set_recording_state env st o fi).st

end CbSdkConnection

/-- A concrete sample oracle used to evaluate the model on closed inputs: the
default connection parameters documented in the constructor docstring, a
successful `cbpy.open`, and simple fixed answers for every query. -/
def envA : CbPy where
  defaultConParams :=
    .cons "client-addr" (.vStr "192.168.137.255")
      (.cons "client-port" (.vInt 51002)
        (.cons "inst-addr" (.vStr "192.168.137.128")
          (.cons "inst-port" (.vInt 51001)
            (.cons "receive-buffer-size" (.vInt 8388608) .nil))))
  openRes := .ok (0, .vStr "info")
  trial_event := fun _ => (0, .vList .nil)
  trial_continuous := fun _ => (0, .vList .nil, 7)
  trial_comment := fun _ => (0, .vList .nil)
  get_sample_group := fun _ _ => (0, .vList .nil)
  get_channel_config := fun _ _ => (0, .vDict .nil)
  time_ := fun _ => (0, 42)
  get_sys_config := fun _ =>
    .vDict (.cons "spklength" (.vInt 48) .nil)
  file_config := fun kw =>
    if kw.hasKey "filename" then .vInt 0
    else .vTuple (.cons (.vInt 0)
      (.cons (.vDict (.cons "Recording" (.vBool true) .nil)) .nil))
  get_new_waveforms := fun c => .vInt (Int.ofNat c)

/-- A second sample oracle whose `cbpy.open` raises
`RuntimeError("-30, Instrument is offline")`. -/
def envB : CbPy :=
  { envA with openRes := .error "-30, Instrument is offline" }


/-- Looking up after `setKey`: the set key reads back the new value, every
other key is unchanged. -/
theorem Fields.find?_setKey (fs : Fields) (k : String) (v : Val) (k' : String) :
    (fs.setKey k v).find? k' = if k' = k then some v else fs.find? k' :=
  match fs with
  | .nil => by
      by_cases h : k' = k
      · subst h; simp [Fields.setKey, Fields.find?]
      · have h' : ¬ k = k' := fun hh => h hh.symm
        simp [Fields.setKey, Fields.find?, h, h']
  | .cons k0 v0 tl => by
      have ih := Fields.find?_setKey tl k v k'
      by_cases h0 : k0 = k
      · subst h0
        by_cases h1 : k' = k0
        · subst h1; simp [Fields.setKey, Fields.find?]
        · have h1' : ¬ k0 = k' := fun hh => h1 hh.symm
          simp [Fields.setKey, Fields.find?, h1, h1']
      · by_cases h1 : k0 = k'
        · subst h1
          simp [Fields.setKey, Fields.find?, h0]
        · simp [Fields.setKey, Fields.find?, h0, h1, ih]

/-- A key outside `keys` has no stored value. -/
theorem Fields.find?_eq_none_of_not_mem_keys {fs : Fields} {k : String}
    (h : k ∉ fs.keys) : fs.find? k = none :=
  match fs with
  | .nil => rfl
  | .cons k0 v0 tl => by
      simp only [Fields.keys, List.mem_cons, not_or] at h
      simp only [Fields.find?, if_neg (fun h' : k0 = k => h.1 h'.symm)]
      exact Fields.find?_eq_none_of_not_mem_keys h.2

/-- The keys after `setKey`: unchanged when the key was present, the key
appended when absent. -/
theorem Fields.keys_setKey (fs : Fields) (k : String) (v : Val) :
    (fs.setKey k v).keys = if k ∈ fs.keys then fs.keys else fs.keys ++ [k] :=
  match fs with
  | .nil => by simp [Fields.setKey, Fields.keys]
  | .cons k0 v0 tl => by
      have ih := Fields.keys_setKey tl k v
      by_cases h0 : k0 = k
      · subst h0; simp [Fields.setKey, Fields.keys]
      · have h0' : ¬ k = k0 := fun hh => h0 hh.symm
        simp only [Fields.setKey, h0, if_false, Fields.keys, ih,
          List.mem_cons, h0', false_or]
        by_cases h1 : k ∈ tl.keys
        · simp [h1]
        · simp [h1]

/-- `setKey` preserves key uniqueness. -/
theorem Fields.NodupKeys.setKey {fs : Fields} (h : fs.NodupKeys) (k : String)
    (v : Val) : (fs.setKey k v).NodupKeys := by
  unfold Fields.NodupKeys at h ⊢
  rw [Fields.keys_setKey]
  by_cases hmem : k ∈ fs.keys
  · simpa [hmem] using h
  · rw [if_neg hmem]
    refine List.Nodup.append h (List.nodup_singleton k) ?_
    intro a ha hb
    simp only [List.mem_singleton] at hb
    subst hb
    exact hmem ha

/-- Lookup distributes over Python dict merge: a key reads the right-hand
value when present there, the left-hand value otherwise. The right-hand dict
must be well-formed (unique keys), which every Python dict is. -/
theorem Fields.find?_merge (a : Fields) {b : Fields} (hb : b.NodupKeys)
    (k : String) :
    (a.merge b).find? k = ((b.find? k).or (a.find? k)) :=
  match b with
  | .nil => by simp [Fields.merge, Fields.find?, Option.or]
  | .cons kb vb tl => by
      have hkb : kb ∉ tl.keys := by
        unfold Fields.NodupKeys at hb
        simp only [Fields.keys, List.nodup_cons] at hb
        exact hb.1
      have htl : tl.NodupKeys := by
        unfold Fields.NodupKeys at hb
        simp only [Fields.keys, List.nodup_cons] at hb
        exact hb.2
      have ih := Fields.find?_merge (a.setKey kb vb) htl k
      simp only [Fields.merge]
      rw [ih]
      by_cases hk : k = kb
      · subst hk
        rw [Fields.find?_eq_none_of_not_mem_keys hkb]
        simp [Fields.find?, Fields.find?_setKey, Option.or]
      · simp only [Fields.find?, if_neg (fun h' : kb = k => hk h'.symm)]
        rw [Fields.find?_setKey]
        simp [hk]

/-- Keys of a merge come from one of the two dicts. -/
theorem Fields.mem_keys_merge {a b : Fields} {k : String}
    (h : k ∈ (a.merge b).keys) : k ∈ a.keys ∨ k ∈ b.keys :=
  match b with
  | .nil => Or.inl h
  | .cons kb vb tl => by
      simp only [Fields.merge] at h
      rcases Fields.mem_keys_merge h with h' | h'
      · rw [Fields.keys_setKey] at h'
        by_cases hmem : kb ∈ a.keys
        · rw [if_pos hmem] at h'; exact Or.inl h'
        · rw [if_neg hmem] at h'
          rcases List.mem_append.mp h' with h'' | h''
          · exact Or.inl h''
          · simp only [List.mem_singleton] at h''
            subst h''; exact Or.inr (by simp [Fields.keys])
      · exact Or.inr (by simp [Fields.keys, h'])

/-- A freshly constructed handle over the sample oracle (disconnected). -/
def st0 : Conn := CbSdkConnection.init envA 0 none false

/-- The handle after a successful `connect()` over the sample oracle. -/
def stC : Conn := (CbSdkConnection.connect envA st0).st

/-- C9: the constructor's ConnectionParameters are the binding's defaults
updated with the caller-supplied `con_params`: a key the caller supplies
reads the caller's value, a key the caller omits reads the vendor default.
The caller's dict is assumed well-formed (unique keys), as every Python dict
is. -/
theorem init_con_params_merge (env : CbPy) (instance_ : Int) (cp : Fields)
    (simulate_ok : Bool) (h : cp.NodupKeys) (k : String) :
    (CbSdkConnection.init env instance_ (some cp) simulate_ok).con_params.find? k
      = ((cp.find? k).or (env.defaultConParams.find? k)) := by
  unfold CbSdkConnection.init
  exact Fields.find?_merge env.defaultConParams h k

/-- Witness for C9: constructing over the sample oracle with
`con_params = {"client-port": 1234}` yields `client-port = 1234` while an
omitted key (`inst-port`) keeps the vendor default. -/
theorem init_con_params_merge_witness :
    Fields.NodupKeys (.cons "client-port" (.vInt 1234) .nil) ∧
    (CbSdkConnection.init envA 0
        (some (.cons "client-port" (.vInt 1234) .nil)) false).con_params.find?
        "client-port" = some (.vInt 1234) ∧
    (CbSdkConnection.init envA 0
        (some (.cons "client-port" (.vInt 1234) .nil)) false).con_params.find?
        "inst-port" = envA.defaultConParams.find? "inst-port" := by
  refine ⟨by decide, ?_, ?_⟩
  · rw [init_con_params_merge envA 0 _ false (by decide) "client-port"]; rfl
  · rw [init_con_params_merge envA 0 _ false (by decide) "inst-port"]; rfl

/-- C3 (divergence witness): assigning the non-mapping value `5` to the
`cbsdk_config` property logs the "must be a dictionary" error but then
raises `TypeError` (from evaluating `'buffer_parameter' in 5`, since the
handler has no early return), leaving the stored configuration unchanged.
The claim says the call does not raise. -/
theorem cbsdk_config_set_nondict_raises :
    (CbSdkConnection.cbsdk_config_set st0 (.vInt 5)).ret
        = .error .typeError ∧
    (CbSdkConnection.cbsdk_config_set st0 (.vInt 5)).st = st0 ∧
    (CbSdkConnection.cbsdk_config_set st0 (.vInt 5)).logs
        = [.errorConfigNotDict] :=
  ⟨rfl, rfl, rfl⟩

/-- C8 (counterexample): constructing the handle a second time with different
parameters does not return the first-created instance: `CbSdkConnection` is
not wrapped by the `singleton` decorator, so the second construction is an
independent object carrying the second call's parameters. -/
theorem second_construction_not_first :
    CbSdkConnection.init envA 0 (some (.cons "client-port" (.vInt 9) .nil))
        false
      ≠ CbSdkConnection.init envA 0
          (some (.cons "client-port" (.vInt 1234) .nil)) false := by
  decide

/-- C8 (amended): the `singleton` decorator in `_shared.py` does memoise (a
second call to the wrapped constructor returns the first-created instance,
whatever the new keyword arguments), but `CbSdkConnection` is not decorated
with it, so each construction runs `__init__` afresh and the resulting
handle's parameters always reflect that call's own arguments. -/
theorem singleton_decorator_unused {κ α : Type} (cls : κ → α) (k1 k2 : κ)
    (env : CbPy) (instance_ : Int) (cp : Fields) (simulate_ok : Bool) :
    (getinstance cls (getinstance cls none k1).2 k2).1
        = (getinstance cls none k1).1 ∧
    (CbSdkConnection.init env instance_ (some cp) simulate_ok).con_params
        = env.defaultConParams.merge cp :=
  ⟨rfl, rfl⟩

/-- C2 (counterexample): on a disconnected handle `get_recording_state`
returns `False`, not `None`, so the claim that every listed getter returns
`None` when disconnected is false as stated. -/
theorem get_recording_state_disconnected_not_none :
    (CbSdkConnection.get_recording_state envA st0).ret = .ok (.vBool false) ∧
    (Except.ok (Val.vBool false) : Except PyErr Val) ≠ .ok .vNone :=
  ⟨rfl, fun h => Val.noConfusion (Except.ok.inj h)⟩

/-- C2 (amended): on a disconnected handle every listed getter performs no
binding call; `get_event_data`, `get_continuous_data`, `get_comments`,
`get_group_config`, `get_channel_info`, `time` and `get_sys_config` return
`None`, while `get_recording_state` returns `False`. (`get_event_data` reads
`cbsdk_config['get_events']` before the connection check, so that key — set
by the constructor and never removable — is assumed present.) -/
theorem getters_disconnected (env : CbPy) (st : Conn)
    (hdis : st.is_connected = false) :
    (∀ ge, st._cbsdk_config.find? "get_events" = some ge →
        (CbSdkConnection.get_event_data env st).ret = .ok .vNone ∧
        (CbSdkConnection.get_event_data env st).tr = []) ∧
    (∀ rt, (CbSdkConnection.get_continuous_data env st rt).ret = .ok .vNone ∧
        (CbSdkConnection.get_continuous_data env st rt).tr = []) ∧
    ((CbSdkConnection.get_comments env st).ret = .ok .vNone ∧
        (CbSdkConnection.get_comments env st).tr = []) ∧
    (∀ g, (CbSdkConnection.get_group_config env st g).ret = .ok .vNone ∧
        (CbSdkConnection.get_group_config env st g).tr = []) ∧
    (∀ c, (CbSdkConnection.get_channel_info env st c).ret = .ok .vNone ∧
        (CbSdkConnection.get_channel_info env st c).tr = []) ∧
    ((CbSdkConnection.time env st).ret = .ok .vNone ∧
        (CbSdkConnection.time env st).tr = []) ∧
    ((CbSdkConnection.get_sys_config env st).ret = .ok .vNone ∧
        (CbSdkConnection.get_sys_config env st).tr = []) ∧
    ((CbSdkConnection.get_recording_state env st).ret = .ok (.vBool false) ∧
        (CbSdkConnection.get_recording_state env st).tr = []) := by
  refine ⟨?_, ?_, ?_, ?_, ?_, ?_, ?_, ?_⟩
  · intro ge hge
    simp only [CbSdkConnection.get_event_data, CbSdkConnection.cfgGet, hge]
    cases hge' : ge.truthy <;> simp [hdis]
  · intro rt
    simp [CbSdkConnection.get_continuous_data, hdis]
  · simp [CbSdkConnection.get_comments, hdis]
  · intro g
    simp [CbSdkConnection.get_group_config, hdis]
  · intro c
    simp [CbSdkConnection.get_channel_info, hdis]
  · simp [CbSdkConnection.time, hdis]
  · simp [CbSdkConnection.get_sys_config, hdis]
  · simp [CbSdkConnection.get_recording_state, hdis]

/-- Witness for the amended C2, instantiated on the freshly constructed
(disconnected) handle over the sample oracle. -/
theorem getters_disconnected_witness :
    (CbSdkConnection.get_event_data envA st0).ret = .ok .vNone ∧
    (CbSdkConnection.get_continuous_data envA st0 false).ret = .ok .vNone ∧
    (CbSdkConnection.time envA st0).tr = ([] : List BCall) ∧
    (CbSdkConnection.get_recording_state envA st0).ret = .ok (.vBool false) := by
  have h := getters_disconnected envA st0 (by decide)
  exact ⟨(h.1 (.vBool true) (by decide)).1, (h.2.1 false).1, h.2.2.2.2.2.1.2,
    h.2.2.2.2.2.2.2.1⟩

/-- C10: when connected and a filename is present, `set_recording_state`
mutates the caller-supplied `file_info` dict in place (the model returns the
caller's mapping after the call as the second component): its `'command'` key
is set to `'start'`/`'stop'`, overwriting any existing value, every other key
is untouched, and the very same mapping is forwarded to
`cbpy.file_config(**file_info)`. -/
theorem set_recording_state_mutates_file_info (env : CbPy) (st : Conn)
    (on_off : Bool) (file_info : Fields)
    (hconn : st.is_connected = true)
    (hfn : file_info.hasKey "filename" = true) :
    ∃ fi, (CbSdkConnection.set_recording_state env st on_off file_info).ret
        = .ok (env.file_config fi, fi) ∧
      fi.find? "command" = some (.vStr (if on_off then "start" else "stop")) ∧
      (∀ k, k ≠ "command" → fi.find? k = file_info.find? k) := by
  refine ⟨file_info.setKey "command"
    (.vStr (if on_off then "start" else "stop")), ?_, ?_, ?_⟩
  · simp [CbSdkConnection.set_recording_state, hconn, hfn]
  · rw [Fields.find?_setKey]; simp
  · intro k hk; rw [Fields.find?_setKey]; simp [hk]

/-- Witness for C10: on the connected sample handle, with a `file_info` that
already has a `'command'` entry, the existing value is overwritten with
`'start'` and the filename is preserved. -/
theorem set_recording_state_mutates_file_info_witness :
    stC.is_connected = true ∧
    ∃ fi, (CbSdkConnection.set_recording_state envA stC true
        (.cons "filename" (.vStr "x")
          (.cons "command" (.vStr "old") .nil))).ret
        = .ok (envA.file_config fi, fi) ∧
      fi.find? "command" = some (.vStr "start") ∧
      fi.find? "filename" = some (.vStr "x") := by
  refine ⟨by decide, ?_⟩
  obtain ⟨fi, h1, h2, h3⟩ := set_recording_state_mutates_file_info envA stC
    true (.cons "filename" (.vStr "x") (.cons "command" (.vStr "old") .nil))
    (by decide) (by decide)
  exact ⟨fi, h1, h2, by rw [h3 "filename" (by decide)]; rfl⟩

/-- C5: `set_recording_state` returns `-1` with no binding call (and no
sleep) whenever the handle is disconnected or `file_info` lacks a
`'filename'` key; when connected with a filename it issues
`file_config(command='open')`, sleeps 250 ms, then issues one
`file_config(**file_info)` with `command` set to `'start'` when `on_off` is
true and `'stop'` otherwise, returning that call's result. -/
theorem set_recording_state_spec (env : CbPy) (st : Conn) (on_off : Bool)
    (file_info : Fields) :
    ((st.is_connected = false ∨ file_info.hasKey "filename" = false) →
      (CbSdkConnection.set_recording_state env st on_off file_info).ret
          = .ok (.vInt (-1), file_info) ∧
      (CbSdkConnection.set_recording_state env st on_off file_info).tr = []) ∧
    (st.is_connected = true → file_info.hasKey "filename" = true →
      (CbSdkConnection.set_recording_state env st on_off file_info).tr
          = [.fileConfig (.cons "command" (.vStr "open") .nil), .sleepCall 250,
            .fileConfig (file_info.setKey "command"
              (.vStr (if on_off then "start" else "stop")))] ∧
      (CbSdkConnection.set_recording_state env st on_off file_info).ret
          = .ok (env.file_config (file_info.setKey "command"
              (.vStr (if on_off then "start" else "stop"))),
            file_info.setKey "command"
              (.vStr (if on_off then "start" else "stop")))) := by
  constructor
  · rintro (h | h) <;> simp [CbSdkConnection.set_recording_state, h]
  · intro h1 h2
    simp [CbSdkConnection.set_recording_state, h1, h2]

/-- Witness for C5: both branches at concrete inputs over the sample oracle:
disconnected (or missing filename) gives `-1` and an empty trace; the
connected branch issues open, sleep, then start. -/
theorem set_recording_state_spec_witness :
    ((CbSdkConnection.set_recording_state envA stC true .nil).ret
        = .ok (.vInt (-1), .nil) ∧
      (CbSdkConnection.set_recording_state envA stC true .nil).tr = []) ∧
    (CbSdkConnection.set_recording_state envA stC true
        (.cons "filename" (.vStr "x") .nil)).tr
      = [.fileConfig (.cons "command" (.vStr "open") .nil), .sleepCall 250,
        .fileConfig (.cons "filename" (.vStr "x")
          (.cons "command" (.vStr "start") .nil))] := by
  constructor
  · exact (set_recording_state_spec envA stC true .nil).1 (Or.inr (by decide))
  · have h := ((set_recording_state_spec envA stC true
      (.cons "filename" (.vStr "x") .nil)).2 (by decide) (by decide)).1
    exact h

/-- The wrap step of `set_comments`: a value that is neither a list nor a
tuple becomes a one-element sequence. -/
def normalizeComments : Val → List Val
  | .vList xs => xs.toList
  | .vTuple xs => xs.toList
  | v => [v]

/-- The `set_comments` loop posts one comment per element, in order, each
with the colour tuple and the configured instance, and changes no state. -/
theorem set_comments_loop_spec (st : Conn) (rgba : Val) (inst : Val)
    (h : st._cbsdk_config.find? "instance" = some inst) (xs : ValList) :
    CbSdkConnection.set_comments_loop st rgba xs =
      ⟨.ok .vNone, st, xs.toList.map (fun c => .setComment c rgba inst),
        []⟩ :=
  match xs with
  | .nil => rfl
  | .cons c tl => by
      have ih := set_comments_loop_spec st rgba inst h tl
      simp only [CbSdkConnection.set_comments_loop, CbSdkConnection.cfgGet, h,
        ih, ValList.toList, List.map]

/-- C6: `set_comments` wraps a single (non-list, non-tuple) value into a
one-element sequence and posts each element exactly once, in order, with the
supplied colour tuple; it has no connection-state guard (the statement holds
for every handle state, connected or not) and leaves the state unchanged. -/
theorem set_comments_spec (st : Conn) (comment_list rgba inst : Val)
    (h : st._cbsdk_config.find? "instance" = some inst) :
    (CbSdkConnection.set_comments st comment_list rgba).ret = .ok .vNone ∧
    (CbSdkConnection.set_comments st comment_list rgba).st = st ∧
    (CbSdkConnection.set_comments st comment_list rgba).tr =
      (normalizeComments comment_list).map
        (fun c => .setComment c rgba inst) := by
  unfold CbSdkConnection.set_comments
  cases comment_list <;>
    simp [normalizeComments, set_comments_loop_spec st rgba inst h,
      ValList.toList, List.map]

/-- Witness for C6: a single string posts once; a two-element list posts each
element in order — evaluated on a disconnected handle, confirming the absent
guard. -/
theorem set_comments_spec_witness :
    (CbSdkConnection.set_comments st0 (.vStr "hello")
        (.vStr "rgba")).tr
      = [.setComment (.vStr "hello") (.vStr "rgba") (.vInt 0)] ∧
    (CbSdkConnection.set_comments st0
        (.vList (.cons (.vStr "a") (.cons (.vStr "b") .nil)))
        (.vStr "rgba")).tr
      = [.setComment (.vStr "a") (.vStr "rgba") (.vInt 0),
        .setComment (.vStr "b") (.vStr "rgba") (.vInt 0)] ∧
    st0.is_connected = false := by
  refine ⟨?_, ?_, by decide⟩
  · exact (set_comments_spec st0 (.vStr "hello") (.vStr "rgba") (.vInt 0)
      (by decide)).2.2
  · exact (set_comments_spec st0
      (.vList (.cons (.vStr "a") (.cons (.vStr "b") .nil))) (.vStr "rgba")
      (.vInt 0) (by decide)).2.2

/-- The configuration setter never touches the spike cache. -/
theorem cbsdk_config_set_spike_cache (st : Conn) (v : Val) :
    (CbSdkConnection.cbsdk_config_set st v).st.spike_cache = st.spike_cache := by
  unfold CbSdkConnection.cbsdk_config_set
  split <;> rfl

/-- `connect` never touches the spike cache. -/
theorem connect_spike_cache (env : CbPy) (st : Conn) :
    (CbSdkConnection.connect env st).st.spike_cache = st.spike_cache := by
  unfold CbSdkConnection.connect
  split
  · exact cbsdk_config_set_spike_cache _ _
  · split <;> rfl

/-- `get_event_data` leaves the handle state unchanged. -/
theorem get_event_data_st (env : CbPy) (st : Conn) :
    (CbSdkConnection.get_event_data env st).st = st := by
  unfold CbSdkConnection.get_event_data
  repeat' split
  all_goals rfl

/-- `get_continuous_data` leaves the handle state unchanged. -/
theorem get_continuous_data_st (env : CbPy) (st : Conn) (rt : Bool) :
    (CbSdkConnection.get_continuous_data env st rt).st = st := by
  unfold CbSdkConnection.get_continuous_data
  repeat' split
  all_goals rfl

/-- `get_comments` leaves the handle state unchanged. -/
theorem get_comments_st (env : CbPy) (st : Conn) :
    (CbSdkConnection.get_comments env st).st = st := by
  unfold CbSdkConnection.get_comments
  repeat' split
  all_goals rfl

/-- The `set_comments` loop leaves the handle state unchanged. -/
theorem set_comments_loop_st (st : Conn) (rgba : Val) (xs : ValList) :
    (CbSdkConnection.set_comments_loop st rgba xs).st = st :=
  match xs with
  | .nil => rfl
  | .cons c tl => by
      have ih := set_comments_loop_st st rgba tl
      unfold CbSdkConnection.set_comments_loop
      split
      · rfl
      · simpa using ih

/-- `set_comments` leaves the handle state unchanged. -/
theorem set_comments_st (st : Conn) (cl rgba : Val) :
    (CbSdkConnection.set_comments st cl rgba).st = st := by
  unfold CbSdkConnection.set_comments
  cases cl <;> exact set_comments_loop_st _ _ _

/-- `get_group_config` leaves the handle state unchanged. -/
theorem get_group_config_st (env : CbPy) (st : Conn) (g : Val) :
    (CbSdkConnection.get_group_config env st g).st = st := by
  unfold CbSdkConnection.get_group_config
  repeat' split
  all_goals rfl

/-- `get_channel_info` leaves the handle state unchanged. -/
theorem get_channel_info_st (env : CbPy) (st : Conn) (c : Val) :
    (CbSdkConnection.get_channel_info env st c).st = st := by
  unfold CbSdkConnection.get_channel_info
  repeat' split
  all_goals rfl

/-- `monitor_chan` leaves the handle state unchanged. -/
theorem monitor_chan_st (st : Conn) (c : Val) (a : Int) :
    (CbSdkConnection.monitor_chan st c a).st = st := by
  unfold CbSdkConnection.monitor_chan
  repeat' split
  all_goals rfl

/-- `get_sys_config` leaves the handle state unchanged. -/
theorem get_sys_config_st (env : CbPy) (st : Conn) :
    (CbSdkConnection.get_sys_config env st).st = st := by
  unfold CbSdkConnection.get_sys_config
  repeat' split
  all_goals rfl

/-- `get_recording_state` leaves the handle state unchanged. -/
theorem get_recording_state_st (env : CbPy) (st : Conn) :
    (CbSdkConnection.get_recording_state env st).st = st := by
  unfold CbSdkConnection.get_recording_state
  dsimp only
  repeat' split
  all_goals rfl

/-- C7: the spike cache is written only on the first connected
`get_waveforms` call for a channel, is only read afterwards, and no handle
operation ever removes an entry. Part one: a connected call for a cached
channel changes nothing and reuses the cached cursor. Part two: a connected
call for an uncached channel adds exactly one entry holding a fresh cursor.
Part three: after any operation, every cached entry is still cached
unchanged. -/
theorem get_waveforms_cache_spec (env : CbPy) :
    (∀ st chan cur, st.is_connected = true →
        scFind st.spike_cache chan = some cur →
        (CbSdkConnection.get_waveforms env st chan).st = st ∧
        (CbSdkConnection.get_waveforms env st chan).tr
          = [.getNewWaveforms cur] ∧
        (CbSdkConnection.get_waveforms env st chan).ret
          = .ok (env.get_new_waveforms cur)) ∧
    (∀ st chan inst, st.is_connected = true →
        scFind st.spike_cache chan = none →
        st._cbsdk_config.find? "instance" = some inst →
        (CbSdkConnection.get_waveforms env st chan).st.spike_cache
          = (chan, st.next_cursor) :: st.spike_cache ∧
        (CbSdkConnection.get_waveforms env st chan).tr
          = [.spikeCacheNew chan inst st.next_cursor,
            .getNewWaveforms st.next_cursor]) ∧
    (∀ st op chan cur, scFind st.spike_cache chan = some cur →
        scFind (CbSdkConnection.runOp env st op).spike_cache chan
          = some cur) := by
  refine ⟨?_, ?_, ?_⟩
  · intro st chan cur hconn hfound
    simp [CbSdkConnection.get_waveforms, hconn, hfound]
  · intro st chan inst hconn hmiss hinst
    simp [CbSdkConnection.get_waveforms, CbSdkConnection.cfgGet, hconn, hmiss,
      hinst]
  · intro st op chan cur h
    cases op with
    | connectOp =>
        show scFind (CbSdkConnection.connect env st).st.spike_cache chan
          = some cur
        rw [connect_spike_cache]; exact h
    | disconnectOp => exact h
    | setConfigOp v =>
        show scFind (CbSdkConnection.cbsdk_config_set st v).st.spike_cache chan
          = some cur
        rw [cbsdk_config_set_spike_cache]; exact h
    | getEventDataOp =>
        show scFind (CbSdkConnection.get_event_data env st).st.spike_cache chan
          = some cur
        rw [get_event_data_st]; exact h
    | getContinuousDataOp rt =>
        show scFind
          (CbSdkConnection.get_continuous_data env st rt).st.spike_cache chan
          = some cur
        rw [get_continuous_data_st]; exact h
    | getCommentsOp =>
        show scFind (CbSdkConnection.get_comments env st).st.spike_cache chan
          = some cur
        rw [get_comments_st]; exact h
    | setCommentsOp cl rgba =>
        show scFind
          (CbSdkConnection.set_comments st cl rgba).st.spike_cache chan
          = some cur
        rw [set_comments_st]; exact h
    | getGroupConfigOp g =>
        show scFind
          (CbSdkConnection.get_group_config env st g).st.spike_cache chan
          = some cur
        rw [get_group_config_st]; exact h
    | getChannelInfoOp c =>
        show scFind
          (CbSdkConnection.get_channel_info env st c).st.spike_cache chan
          = some cur
        rw [get_channel_info_st]; exact h
    | setChannelInfoOp c i =>
        show scFind
          (CbSdkConnection.set_channel_info st c i).st.spike_cache chan
          = some cur
        unfold CbSdkConnection.set_channel_info
        split <;> exact h
    | timeOp =>
        show scFind (CbSdkConnection.time env st).st.spike_cache chan
          = some cur
        unfold CbSdkConnection.time
        split <;> exact h
    | monitorChanOp c a =>
        show scFind (CbSdkConnection.monitor_chan st c a).st.spike_cache chan
          = some cur
        rw [monitor_chan_st]; exact h
    | getWaveformsOp c =>
        show scFind (CbSdkConnection.get_waveforms env st c).st.spike_cache chan
          = some cur
        unfold CbSdkConnection.get_waveforms
        by_cases hc : st.is_connected
        · simp only [hc, if_true]
          cases hsc : scFind st.spike_cache c with
          | some cur' => exact h
          | none =>
              cases hg : CbSdkConnection.cfgGet st "instance" with
              | error e => exact h
              | ok inst =>
                  have hne : c ≠ chan := by
                    intro hEq; rw [hEq, h] at hsc; exact Option.noConfusion hsc
                  simp only [scFind, if_neg hne]
                  exact h
        · simp only [Bool.not_eq_true] at hc
          simp only [hc, if_false]
          exact h
    | getSysConfigOp =>
        show scFind (CbSdkConnection.get_sys_config env st).st.spike_cache chan
          = some cur
        rw [get_sys_config_st]; exact h
    | getConnectionStateOp =>
        show scFind
          (CbSdkConnection.get_connection_state st).st.spike_cache chan
          = some cur
        unfold CbSdkConnection.get_connection_state
        split <;> try exact h
        split <;> exact h
    | getRecordingStateOp =>
        show scFind
          (CbSdkConnection.get_recording_state env st).st.spike_cache chan
          = some cur
        rw [get_recording_state_st]; exact h
    | setRecordingStateOp o fi =>
        show scFind
          (CbSdkConnection.set_recording_state env st o fi).st.spike_cache chan
          = some cur
        unfold CbSdkConnection.set_recording_state
        split <;> exact h

/-- Witness for C7: on the connected sample handle, the first call for
channel 3 creates the cursor, the second call for channel 3 reuses it and
adds nothing, and a disconnect in between removes nothing. -/
theorem get_waveforms_cache_spec_witness :
    ((CbSdkConnection.get_waveforms envA stC (.vInt 3)).st.spike_cache
        = [(.vInt 3, 0)]) ∧
    scFind (CbSdkConnection.runOp envA
        (CbSdkConnection.get_waveforms envA stC (.vInt 3)).st
        .disconnectOp).spike_cache (.vInt 3) = some 0 ∧
    (CbSdkConnection.get_waveforms envA
        (CbSdkConnection.get_waveforms envA stC (.vInt 3)).st
        (.vInt 3)).tr = [.getNewWaveforms 0] := by
  have h2 := (get_waveforms_cache_spec envA).2.1 stC (.vInt 3) (.vInt 0)
    (by decide) (by decide) (by decide)
  have h3 := (get_waveforms_cache_spec envA).2.2
    (CbSdkConnection.get_waveforms envA stC (.vInt 3)).st .disconnectOp
    (.vInt 3) 0 (by rw [h2.1]; decide)
  have h1 := ((get_waveforms_cache_spec envA).1
    (CbSdkConnection.get_waveforms envA stC (.vInt 3)).st (.vInt 3) 0
    (by decide) (by rw [h2.1]; decide)).2.1
  refine ⟨by rw [h2.1]; decide, h3, h1⟩

/-- `cbsdk_config_prepare` on a dict update that carries `buffer_parameter`
(a dict) and no `range_parameter`: it raises nothing and replaces the
update's `buffer_parameter` by the stored one merged with the given one. -/
theorem cbsdk_config_prepare_bp_only (st : Conn) (indict bpOld bp : Fields)
    (hB : st._cbsdk_config.find? "buffer_parameter" = some (.vDict bpOld))
    (hBnew : indict.find? "buffer_parameter" = some (.vDict bp))
    (hRnew : indict.find? "range_parameter" = none) :
    CbSdkConnection.cbsdk_config_prepare st (.vDict indict)
      = (.ok (indict.setKey "buffer_parameter" (.vDict (bpOld.merge bp))),
        []) := by
  unfold CbSdkConnection.cbsdk_config_prepare
  simp only [pyContains, Fields.hasKey, hBnew, Option.isSome_some, if_true,
    pyGetItem, hB, pyUnpackMap, Fields.find?_setKey, hRnew]
  simp [Fields.find?_setKey, hRnew]

/-- `cbsdk_config_prepare` on a dict update that carries `range_parameter`
(a dict) and no `buffer_parameter`: symmetric to the previous lemma. -/
theorem cbsdk_config_prepare_rp_only (st : Conn) (indict rpOld rp : Fields)
    (hR : st._cbsdk_config.find? "range_parameter" = some (.vDict rpOld))
    (hBnew : indict.find? "buffer_parameter" = none)
    (hRnew : indict.find? "range_parameter" = some (.vDict rp)) :
    CbSdkConnection.cbsdk_config_prepare st (.vDict indict)
      = (.ok (indict.setKey "range_parameter" (.vDict (rpOld.merge rp))),
        []) := by
  unfold CbSdkConnection.cbsdk_config_prepare
  simp [pyContains, Fields.hasKey, hBnew, hRnew, pyGetItem, hR, pyUnpackMap]

/-- When preparation succeeds, the stored configuration after the setter is
the old one merged with the prepared update. -/
theorem set_config_cfg (st : Conn) (v : Val) (indictF : Fields)
    (logs : List LogEv)
    (hprep : CbSdkConnection.cbsdk_config_prepare st v = (.ok indictF, logs)) :
    (CbSdkConnection.cbsdk_config_set st v).st._cbsdk_config
      = st._cbsdk_config.merge indictF := by
  unfold CbSdkConnection.cbsdk_config_set
  rw [hprep]

/-- C1: the `cbsdk_config` setter shallow-merges the nested
`buffer_parameter` and `range_parameter` dicts instead of replacing them: a
partial that sets only `buffer_parameter` keys preserves the whole stored
`range_parameter` and every stored sibling `buffer_parameter` key, the new
keys winning on clashes — and symmetrically for a partial that sets only
`range_parameter` keys. Dicts supplied by Python callers have unique keys,
hence the `NodupKeys` hypotheses. -/
theorem cbsdk_config_merge_spec (st : Conn) (indict bpOld rpOld : Fields)
    (hB : st._cbsdk_config.find? "buffer_parameter" = some (.vDict bpOld))
    (hR : st._cbsdk_config.find? "range_parameter" = some (.vDict rpOld))
    (hnd : indict.NodupKeys) :
    (∀ bp, indict.find? "buffer_parameter" = some (.vDict bp) →
        indict.find? "range_parameter" = none → bp.NodupKeys →
        (CbSdkConnection.cbsdk_config_set st
            (.vDict indict)).st._cbsdk_config.find? "range_parameter"
          = some (.vDict rpOld) ∧
        ∃ bp2, (CbSdkConnection.cbsdk_config_set st
            (.vDict indict)).st._cbsdk_config.find? "buffer_parameter"
          = some (.vDict bp2) ∧
          ∀ k, bp2.find? k = ((bp.find? k).or (bpOld.find? k))) ∧
    (∀ rp, indict.find? "range_parameter" = some (.vDict rp) →
        indict.find? "buffer_parameter" = none → rp.NodupKeys →
        (CbSdkConnection.cbsdk_config_set st
            (.vDict indict)).st._cbsdk_config.find? "buffer_parameter"
          = some (.vDict bpOld) ∧
        ∃ rp2, (CbSdkConnection.cbsdk_config_set st
            (.vDict indict)).st._cbsdk_config.find? "range_parameter"
          = some (.vDict rp2) ∧
          ∀ k, rp2.find? k = ((rp.find? k).or (rpOld.find? k))) := by
  constructor
  · intro bp hbp hrp hbpnd
    have hcfg := set_config_cfg st _ _ _
      (cbsdk_config_prepare_bp_only st indict bpOld bp hB hbp hrp)
    have hnd2 : (indict.setKey "buffer_parameter"
        (.vDict (bpOld.merge bp))).NodupKeys := hnd.setKey _ _
    constructor
    · rw [hcfg, Fields.find?_merge _ hnd2, Fields.find?_setKey]
      simp [hrp, hR, Option.or]
    · refine ⟨bpOld.merge bp, ?_, ?_⟩
      · rw [hcfg, Fields.find?_merge _ hnd2, Fields.find?_setKey]
        simp [Option.or]
      · intro k; exact Fields.find?_merge bpOld hbpnd k
  · intro rp hrp hbp hrpnd
    have hcfg := set_config_cfg st _ _ _
      (cbsdk_config_prepare_rp_only st indict rpOld rp hR hbp hrp)
    have hnd2 : (indict.setKey "range_parameter"
        (.vDict (rpOld.merge rp))).NodupKeys := hnd.setKey _ _
    constructor
    · rw [hcfg, Fields.find?_merge _ hnd2, Fields.find?_setKey]
      simp [hbp, hB, Option.or]
    · refine ⟨rpOld.merge rp, ?_, ?_⟩
      · rw [hcfg, Fields.find?_merge _ hnd2, Fields.find?_setKey]
        simp [Option.or]
      · intro k; exact Fields.find?_merge rpOld hrpnd k

/-- Witness for C1: assigning `{'buffer_parameter': {'double': True}}` to the
fresh handle keeps the stored `range_parameter` (`{}`) and the stored sibling
`absolute = True` while adding `double = True`. -/
theorem cbsdk_config_merge_spec_witness :
    ∃ bp2,
      (CbSdkConnection.cbsdk_config_set st0
          (.vDict (.cons "buffer_parameter"
            (.vDict (.cons "double" (.vBool true) .nil))
            .nil))).st._cbsdk_config.find? "range_parameter"
        = some (.vDict .nil) ∧
      (CbSdkConnection.cbsdk_config_set st0
          (.vDict (.cons "buffer_parameter"
            (.vDict (.cons "double" (.vBool true) .nil))
            .nil))).st._cbsdk_config.find? "buffer_parameter"
        = some (.vDict bp2) ∧
      bp2.find? "absolute" = some (.vBool true) ∧
      bp2.find? "double" = some (.vBool true) := by
  obtain ⟨hr, bp2, hbp, hk⟩ := (cbsdk_config_merge_spec st0
      (.cons "buffer_parameter" (.vDict (.cons "double" (.vBool true) .nil))
        .nil)
      (.cons "absolute" (.vBool true) .nil) .nil
      (by decide) (by decide) (by decide)).1
      (.cons "double" (.vBool true) .nil) (by decide) (by decide) (by decide)
  refine ⟨bp2, hr, hbp, ?_, ?_⟩
  · rw [hk]; rfl
  · rw [hk]; rfl

/-- When preparation succeeds, the whole setter result: the update is stored,
`_do_cbsdk_config` supplies the return and the trace, and the preparation's
logs are the logs. -/
theorem cbsdk_config_set_eq (st : Conn) (v : Val) (indictF : Fields)
    (logs : List LogEv)
    (hprep : CbSdkConnection.cbsdk_config_prepare st v = (.ok indictF, logs)) :
    CbSdkConnection.cbsdk_config_set st v =
      ⟨(CbSdkConnection._do_cbsdk_config
          { st with _cbsdk_config := st._cbsdk_config.merge indictF }
          (st._cbsdk_config.merge indictF)).1,
        { st with _cbsdk_config := st._cbsdk_config.merge indictF },
        (CbSdkConnection._do_cbsdk_config
          { st with _cbsdk_config := st._cbsdk_config.merge indictF }
          (st._cbsdk_config.merge indictF)).2,
        logs⟩ := by
  unfold CbSdkConnection.cbsdk_config_set
  rw [hprep]

/-- `_do_cbsdk_config` on a configuration whose keys are all parameter names
and whose `buffer_parameter` is a dict: it returns normally, and it issues
exactly one `trial_config` carrying that buffer dict when connected and
nothing when disconnected. -/
theorem do_config_result (st1 : Conn) (newCfg : Fields)
    (hall : newCfg.keys.all
      (fun k => decide (k ∈ CbSdkConnection.doConfigParamNames)) = true)
    (bpv : Fields)
    (hbp : newCfg.find? "buffer_parameter" = some (.vDict bpv)) :
    (CbSdkConnection._do_cbsdk_config st1 newCfg).1 = .ok () ∧
    (st1.is_connected = true → ∃ i r rpv ne nc ncm,
      (CbSdkConnection._do_cbsdk_config st1 newCfg).2
        = [.trialConfig i r (.vDict bpv) rpv ne nc ncm]) ∧
    (st1.is_connected = false →
      (CbSdkConnection._do_cbsdk_config st1 newCfg).2 = []) := by
  unfold CbSdkConnection._do_cbsdk_config
  rw [if_pos hall, hbp]
  cases hconn : st1.is_connected with
  | true =>
      simp only [hconn, if_true]
      refine ⟨by trivial, fun _ => ⟨_, _, _, _, _, _, by trivial⟩,
        fun h => Bool.noConfusion h⟩
  | false =>
      simp only [hconn, if_false]
      refine ⟨by trivial, fun h => Bool.noConfusion h, fun _ => by trivial⟩

/-- The normal-return branch of `connect`, written out. -/
theorem connect_eq_ok (env : CbPy) (st : Conn) (result : Int) (info : Val)
    (hOpen : env.openRes = .ok (result, info)) :
    CbSdkConnection.connect env st =
      ⟨(match (CbSdkConnection.cbsdk_config_set
            { st with is_connected := result == 0 || result == 1 }
            (.vDict (.cons "buffer_parameter"
              (.vDict (.cons "absolute" (.vBool true) .nil)) .nil))).ret with
          | .ok _ => .ok result
          | .error e => .error e),
        (CbSdkConnection.cbsdk_config_set
            { st with is_connected := result == 0 || result == 1 }
            (.vDict (.cons "buffer_parameter"
              (.vDict (.cons "absolute" (.vBool true) .nil)) .nil))).st,
        .openCall st.instance_ st.con_params ::
          (CbSdkConnection.cbsdk_config_set
            { st with is_connected := result == 0 || result == 1 }
            (.vDict (.cons "buffer_parameter"
              (.vDict (.cons "absolute" (.vBool true) .nil)) .nil))).tr,
        .infoOpenReturned result info ::
          (CbSdkConnection.cbsdk_config_set
            { st with is_connected := result == 0 || result == 1 }
            (.vDict (.cons "buffer_parameter"
              (.vDict (.cons "absolute" (.vBool true) .nil)) .nil))).logs⟩ := by
  unfold CbSdkConnection.connect
  rw [hOpen]

/-- C4: `connect()` sets `is_connected` exactly to "`cbpy.open` returned 0 or
1" and returns the numeric result code. On a normal open it re-applies the
default buffer configuration: the stored `buffer_parameter` afterwards has
`absolute = True`, and when the open succeeded (result 0 or 1) the trace is
the open call followed by one `trial_config` carrying that buffer dict (on a
failed result code nothing is pushed). When `cbpy.open` raises, the returned
code is the integer parsed from the text before the first comma of the
message, `is_connected` becomes false, and the message is logged. The stored
configuration is assumed to hold a dict `buffer_parameter` and only
`_do_cbsdk_config` parameter names as keys, which every reachable
configuration does. -/
theorem connect_spec (env : CbPy) (st : Conn) :
    (∀ result connect_info bpOld,
      env.openRes = .ok (result, connect_info) →
      st._cbsdk_config.find? "buffer_parameter" = some (.vDict bpOld) →
      (∀ k ∈ st._cbsdk_config.keys,
        k ∈ CbSdkConnection.doConfigParamNames) →
      (CbSdkConnection.connect env st).ret = .ok result ∧
      (CbSdkConnection.connect env st).st.is_connected
        = (result == 0 || result == 1) ∧
      ∃ bp2,
        (CbSdkConnection.connect env st).st._cbsdk_config.find?
          "buffer_parameter" = some (.vDict bp2) ∧
        bp2.find? "absolute" = some (.vBool true) ∧
        ((result == 0 || result == 1) = true →
          ∃ i r rpv ne nc ncm,
            (CbSdkConnection.connect env st).tr
              = [.openCall st.instance_ st.con_params,
                .trialConfig i r (.vDict bp2) rpv ne nc ncm]) ∧
        ((result == 0 || result == 1) = false →
          (CbSdkConnection.connect env st).tr
            = [.openCall st.instance_ st.con_params])) ∧
    (∀ msg code, env.openRes = .error msg →
      pyIntOfString (strBeforeComma msg) = .ok code →
      (CbSdkConnection.connect env st).ret = .ok code ∧
      (CbSdkConnection.connect env st).st.is_connected = false ∧
      (CbSdkConnection.connect env st).logs = [.errorException msg] ∧
      (CbSdkConnection.connect env st).tr
        = [.openCall st.instance_ st.con_params]) := by
  constructor
  · intro result connect_info bpOld hOpen hB hkeys
    have hsetKey : (Fields.cons "buffer_parameter"
          (.vDict (.cons "absolute" (.vBool true) .nil)) Fields.nil).setKey
          "buffer_parameter"
          (.vDict (bpOld.merge (.cons "absolute" (.vBool true) .nil)))
        = Fields.cons "buffer_parameter"
          (.vDict (bpOld.merge (.cons "absolute" (.vBool true) .nil)))
          Fields.nil := by
      simp [Fields.setKey]
    have hprep := cbsdk_config_prepare_bp_only
      { st with is_connected := (result == 0 || result == 1) }
      (.cons "buffer_parameter"
        (.vDict (.cons "absolute" (.vBool true) .nil)) .nil)
      bpOld (.cons "absolute" (.vBool true) .nil) hB rfl rfl
    rw [hsetKey] at hprep
    have hseteq := cbsdk_config_set_eq
      { st with is_connected := (result == 0 || result == 1) }
      (.vDict (.cons "buffer_parameter"
        (.vDict (.cons "absolute" (.vBool true) .nil)) .nil))
      (Fields.cons "buffer_parameter"
        (.vDict (bpOld.merge (.cons "absolute" (.vBool true) .nil)))
        Fields.nil) [] hprep
    have hnd2 : (Fields.cons "buffer_parameter"
        (.vDict (bpOld.merge (.cons "absolute" (.vBool true) .nil)))
        Fields.nil).NodupKeys := by
      simp [Fields.NodupKeys, Fields.keys]
    have hbpNew : (st._cbsdk_config.merge (Fields.cons "buffer_parameter"
          (.vDict (bpOld.merge (.cons "absolute" (.vBool true) .nil)))
          Fields.nil)).find? "buffer_parameter"
        = some (.vDict (bpOld.merge
            (.cons "absolute" (.vBool true) .nil))) := by
      rw [Fields.find?_merge _ hnd2]
      simp [Fields.find?, Option.or]
    have hall : (st._cbsdk_config.merge (Fields.cons "buffer_parameter"
          (.vDict (bpOld.merge (.cons "absolute" (.vBool true) .nil)))
          Fields.nil)).keys.all
          (fun k => decide (k ∈ CbSdkConnection.doConfigParamNames))
        = true := by
      rw [List.all_eq_true]
      intro k hk
      rcases Fields.mem_keys_merge hk with h' | h'
      · simpa using hkeys k h'
      · simp only [Fields.keys, List.mem_cons, List.not_mem_nil,
          or_false] at h'
        subst h'
        decide
    have hdo := do_config_result
      { { st with is_connected := (result == 0 || result == 1) } with
        _cbsdk_config := { st with
          is_connected :=
            (result == 0 || result == 1) }._cbsdk_config.merge
          (Fields.cons "buffer_parameter"
            (.vDict (bpOld.merge (.cons "absolute" (.vBool true) .nil)))
            Fields.nil) }
      ({ st with is_connected :=
          (result == 0 || result == 1) }._cbsdk_config.merge
        (Fields.cons "buffer_parameter"
          (.vDict (bpOld.merge (.cons "absolute" (.vBool true) .nil)))
          Fields.nil)) hall
      (bpOld.merge (.cons "absolute" (.vBool true) .nil)) hbpNew
    rw [connect_eq_ok env st result connect_info hOpen, hseteq]
    refine ⟨?_, ?_, ?_⟩
    · rw [hdo.1]
    · rfl
    · refine ⟨bpOld.merge (.cons "absolute" (.vBool true) .nil),
        hbpNew, ?_, ?_, ?_⟩
      · rw [Fields.find?_merge bpOld
          (by simp [Fields.NodupKeys, Fields.keys])]
        simp [Fields.find?, Option.or]
      · intro hres
        obtain ⟨i, r, rpv, ne, nc, ncm, htr⟩ := hdo.2.1 hres
        exact ⟨i, r, rpv, ne, nc, ncm, by rw [htr]⟩
      · intro hres
        rw [hdo.2.2 hres]
  · intro msg code hOpen hcode
    unfold CbSdkConnection.connect
    rw [hOpen]
    dsimp only
    rw [hcode]
    exact ⟨rfl, rfl, rfl, rfl⟩

/-- Witness for C4: over the sample oracles, a successful open (result 0)
connects and returns 0, and an open raising
`RuntimeError("-30, Instrument is offline")` leaves the handle disconnected
and returns -30. -/
theorem connect_spec_witness :
    (CbSdkConnection.connect envA st0).ret = .ok 0 ∧
    (CbSdkConnection.connect envA st0).st.is_connected = true ∧
    (CbSdkConnection.connect envB st0).ret = .ok (-30) ∧
    (CbSdkConnection.connect envB st0).st.is_connected = false := by
  have hA := (connect_spec envA st0).1 0 (.vStr "info")
    (.cons "absolute" (.vBool true) .nil) rfl (by decide) (by decide)
  have hBr := (connect_spec envB st0).2 "-30, Instrument is offline" (-30)
    rfl rfl
  exact ⟨hA.1, by rw [hA.2.1]; decide, hBr.1, hBr.2.1⟩
